import Mathlib

/-!
Verification of RestrictedBot: a shallow embedding of the quota gate
(`premium_manager.py`), the user-record read path (`database.py`), the
transfer pipeline and batch loop (`bot.py`, `user_session.py`), the link
parser (`utils.py`), the single-flight guard (`bot.py`), the code-submission
handler (`bot.py`) and the authentication check (`auth_manager.py`),
together with theorems settling the specification's claims about them.

Timestamps are modelled as rationals (Python `time.time()` / `datetime`
differences); machine integers in the source are plain Python integers, so
`Nat`/`Int` model them exactly.
-/

namespace RestrictedBot

/-- Configuration values from `config.py`.  Each numeric field carries the
default used when the corresponding environment variable is absent. -/
structure Config where
  adminIds : List Int
  maxDownloadsPerUser : Nat
  maxDownloadsPremium : Nat
  maxDownloadsPro : Nat
  downloadCooldown : Nat
deriving DecidableEq, Repr

/-- The default configuration of `config.py` (no environment overrides),
with the admin allow-list left as a parameter since `ADMIN_IDS` is read
from the environment. -/
def defaultConfig (adminIds : List Int) : Config :=
  { adminIds := adminIds
    maxDownloadsPerUser := 5
    maxDownloadsPremium := 50
    maxDownloadsPro := 200
    downloadCooldown := 20 }

/-- A row of the `users` table as returned by `DatabaseManager.get_user`
(`database.py`): the fields the gated pipeline reads and mutates. -/
structure UserData where
  user_id : Int
  is_admin : Bool
  is_premium : Bool
  is_pro : Bool
  download_count : Nat
  daily_reset : ℚ
  subscription_expiry : Option ℚ
  last_used : ℚ
deriving DecidableEq, Repr

/-- User tiers as the strings of `PremiumManager.get_user_tier`. -/
inductive Tier
  | free
  | premium
  | pro
  | admin
deriving DecidableEq, Repr

/-- `PremiumManager.get_user_tier` (premium_manager.py:9-19): admin if the
admin flag is set or the id is in the static allow-list; else pro, else
premium, else free. -/
def get_user_tier (cfg : Config) (u : UserData) : Tier :=
  if u.is_admin || cfg.adminIds.contains u.user_id then .admin
  else if u.is_pro then .pro
  else if u.is_premium then .premium
  else .free

/-- `PremiumManager.get_download_limit` (premium_manager.py:21-33).  The
`limits.get(tier, default)` fallback maps the (unreachable) admin key to the
free limit. -/
def get_download_limit (cfg : Config) (u : UserData) : Nat :=
  if u.is_admin || cfg.adminIds.contains u.user_id then 999999
  else
    match get_user_tier cfg u with
    | .free => cfg.maxDownloadsPerUser
    | .premium => cfg.maxDownloadsPremium
    | .pro => cfg.maxDownloadsPro
    | .admin => cfg.maxDownloadsPerUser

/-- `PremiumManager.can_download` (premium_manager.py:49-65): returns an
admit flag together with the reason string of the source. -/
def can_download (cfg : Config) (user_data : Option UserData) : Bool × String :=
  match user_data with
  | none => (false, "User not found")
  | some u =>
    if u.is_admin || cfg.adminIds.contains u.user_id then
      (true, "Admin unlimited access")
    else
      let max_downloads := get_download_limit cfg u
      let used_downloads := u.download_count
      if used_downloads ≥ max_downloads then
        (false, "Daily limit reached (" ++ toString used_downloads ++ "/" ++
          toString max_downloads ++ ")")
      else
        (true, "OK")

/-- `PremiumManager.get_cooldown_time` (premium_manager.py:67-73). -/
def get_cooldown_time (cfg : Config) (u : UserData) : Nat :=
  if u.is_admin || cfg.adminIds.contains u.user_id then 0
  else if get_user_tier cfg u ≠ .free then 0
  else cfg.downloadCooldown

/-- Outcome of `TelegramDownloaderBot._check_access` (bot.py:50-102). -/
inductive AccessDecision
  | notAuthenticated
  | userNotFound
  | limitDenied (reason : String)
  | cooldownDenied (waitTime : Int)
  | allowed
deriving DecidableEq, Repr

/-- Python `int()` applied to a rational: truncation toward zero, as in the
`wait_time = cooldown - int(time_since_last)` computation. -/
def pyInt (q : ℚ) : Int :=
  if 0 ≤ q then ⌊q⌋ else ⌈q⌉

/-- `TelegramDownloaderBot._check_access` (bot.py:50-102): the
authentication check, the quota check via `can_download` and, for users with
a positive cooldown and a recorded last download, the cooldown comparison
`time_since_last < cooldown`.  `lastTime` is the entry of
`self.last_download_time` for the user (absent if none recorded) and `now`
is `time.time()` at the call. -/
def check_access (cfg : Config) (isAuth : Bool) (user_data : Option UserData)
    (lastTime : Option ℚ) (now : ℚ) : AccessDecision :=
  if ¬isAuth then .notAuthenticated
  else
    match user_data with
    | none => .userNotFound
    | some u =>
      if u.is_admin || cfg.adminIds.contains u.user_id then .allowed
      else
        match can_download cfg (some u) with
        | (false, reason) => .limitDenied reason
        | (true, _) =>
          let cooldown := get_cooldown_time cfg u
          match lastTime with
          | some t =>
            if cooldown > 0 ∧ now - t < (cooldown : ℚ) then
              .cooldownDenied ((cooldown : Int) - pyInt (now - t))
            else .allowed
          | none => .allowed

/-- Whether an access decision is a cooldown denial. -/
def AccessDecision.isCooldown : AccessDecision → Bool
  | .cooldownDenied _ => true
  | _ => false

/-- `DatabaseManager.get_user` (database.py:127-180) for one user's row.
The row is fetched first; then, in order: the lazy daily reset (when more
than 24 h = 86400 s have passed), the lazy subscription-expiry downgrade
(when `now > expiry`: premium/pro cleared and expiry nulled, in the store),
and the unconditional `last_used` update are written back.  The function
returns the pair (value returned to the caller, row left in the store).
Crucially the source returns `dict(user)` built from the row fetched
*before* the updates. -/
def get_user (now : ℚ) (stored : Option UserData) : Option UserData × Option UserData :=
  match stored with
  | none => (none, none)
  | some u =>
    let u1 := if now - u.daily_reset > 86400 then
        { u with download_count := 0, daily_reset := now } else u
    let u2 :=
      match u1.subscription_expiry with
      | some expiry =>
        if now > expiry then
          { u1 with is_premium := false, is_pro := false, subscription_expiry := none }
        else u1
      | none => u1
    let u3 := { u2 with last_used := now }
    (some u, some u3)

/-- Observable side effects of one download-then-relay transfer
(`TelegramDownloaderBot._process_download_with_progress`, bot.py:539-694,
together with `UserSession.download_file`, user_session.py:98-143). -/
inductive Ev
  | download (path : String)
  | incCount
  | addStat
  | uploadAttempt (path : String)
  | cleanup (path : String)
  | setLastDownloadTime
deriving DecidableEq, Repr

/-- `UserSession.download_file` (user_session.py:98-143), abstracted over
the network: `downloadResult` is `some path` when the peer resolution,
message fetch, media check and the actual `message.download` all succeed,
`none` when any of them raises.  On success the source increments the
user's download count and appends a download-stats row *immediately*, then
returns the path. -/
def download_file (downloadResult : Option String) : List Ev × Option String :=
  match downloadResult with
  | none => ([], none)
  | some p => ([.download p, .incCount, .addStat], some p)

/-- `TelegramDownloaderBot._process_download_with_progress`
(bot.py:539-694), abstracted over the network: `hasMedia` is the media
check on the target message, `fileSize`/`maxSize` the size gate,
`downloadResult` the outcome of `UserSession.download_file`, and `uploadOk`
whether `_upload_file_through_bot` returns without raising (its internal
document fallback included).  Returns the ordered trace of effects.  The
source calls `FileManager.cleanup_file` and records
`self.last_download_time[user_id]` only on the path where the upload
succeeded; on upload failure it edits the status message and returns. -/
def process_download (hasMedia : Bool) (fileSize : Option Nat) (maxSize : Nat)
    (downloadResult : Option String) (uploadOk : Bool) : List Ev :=
  if ¬hasMedia then []
  else if (match fileSize with | some s => decide (s > maxSize) | none => false) then []
  else
    match download_file downloadResult with
    | (evs, none) => evs
    | (evs, some p) =>
      if uploadOk then
        evs ++ [.uploadAttempt p, .cleanup p, .setLastDownloadTime]
      else
        evs ++ [.uploadAttempt p]

/-- Observable effects of the batch loops. -/
inductive BEv
  | attempt (messageId : Nat)
  | success (messageId : Nat)
  | sleep (seconds : ℚ)
deriving DecidableEq, Repr

/-- `TelegramDownloaderBot.process_batch_download` (bot.py:1406-1489), the
loop body only, abstracted over the network: iteration `i` of
`range(count)` targets message id `start_message_id + i + 1`; `ok id` says
whether the download and re-upload of that id both succeed (any exception
is caught and the loop continues).  On success the file is cleaned up, the
success counter is incremented and the download count updated.  The source
has no sleep between iterations.  Returns (trace, downloaded_count). -/
def process_batch_download (start_message_id : Nat) (count : Nat)
    (ok : Nat → Bool) : List BEv × Nat :=
  (List.range count).foldl
    (fun acc i =>
      let message_id := start_message_id + i + 1
      if ok message_id then
        (acc.1 ++ [.attempt message_id, .success message_id], acc.2 + 1)
      else
        (acc.1 ++ [.attempt message_id], acc.2))
    ([], 0)

/-- `UserSession.batch_copy_messages` (user_session.py:347-387), loop body,
abstracted over the network: the iterated ids are
`range(start_message_id, start_message_id + count)` — starting AT the
anchor — and after each copy that does not raise the source sleeps 0.5 s
(`raised id` = the copy threw; a thrown copy skips the sleep and is
skipped).  Returns (trace, success_count). -/
def batch_copy_messages (start_message_id : Nat) (count : Nat)
    (raised : Nat → Bool) : List BEv × Nat :=
  (List.range count).foldl
    (fun acc i =>
      let msg_id := start_message_id + i
      if raised msg_id then
        (acc.1 ++ [.attempt msg_id], acc.2)
      else
        (acc.1 ++ [.attempt msg_id, .success msg_id, .sleep (1/2)], acc.2 + 1))
    ([], 0)

/-- The message ids a batch trace attempted, in order. -/
def attemptedIds (t : List BEv) : List Nat :=
  t.filterMap fun e =>
    match e with
    | .attempt i => some i
    | _ => none

/-- How many sleep events a batch trace contains. -/
def sleepCount (t : List BEv) : Nat :=
  (t.filter fun e =>
    match e with
    | .sleep _ => true
    | _ => false).length

/-- Python `str.strip()` on a character list: drop whitespace from both
ends. -/
def pyStrip (cs : List Char) : List Char :=
  ((cs.dropWhile Char.isWhitespace).reverse.dropWhile Char.isWhitespace).reverse

/-- Drop a literal pattern from the front of a character list, failing if it
is not there (the literal parts of the regexes in `utils.py`). -/
def dropLead : List Char → List Char → Option (List Char)
  | [], cs => some cs
  | _, [] => none
  | p :: ps, c :: cs => if p = c then dropLead ps cs else none

/-- The optional `(?:https?://)?` scheme of the link regexes: if the input
starts with `http://` or `https://` that part is consumed, otherwise the
group matches empty. -/
def dropScheme (cs : List Char) : List Char :=
  match dropLead "http://".data cs with
  | some rest => rest
  | none =>
    match dropLead "https://".data cs with
    | some rest => rest
    | none => cs

/-- Numeric value of a digit run, as Python `int()` of the captured group. -/
def natOfDigits (ds : List Char) : Nat :=
  ds.foldl (fun n c => n * 10 + (c.toNat - 48)) 0

/-- A `[a-zA-Z0-9_]` character of the username capture groups. -/
def isWordChar (c : Char) : Bool :=
  c.isAlphanum || c = '_'

/-- The private-link regex `(?:https?://)?t\.me/c/(\d+)/(\d+)` of
`LinkParser.parse_telegram_link` (utils.py:18), matched at the start of the
string with arbitrary trailing text (`re.match`).  Since `\d+` is followed
by `/` (not a digit), greedy matching equals maximal munch. -/
def matchPrivate (cs : List Char) : Option (Nat × Nat) :=
  match dropLead "t.me/c/".data (dropScheme cs) with
  | none => none
  | some r1 =>
    let s1 := r1.span Char.isDigit
    if s1.1.isEmpty then none
    else
      match s1.2 with
      | '/' :: r2 =>
        let s2 := r2.span Char.isDigit
        if s2.1.isEmpty then none
        else some (natOfDigits s1.1, natOfDigits s2.1)
      | _ => none

/-- The public-link regex
`(?:https?://)?(?:t\.me|telegram\.me)/([a-zA-Z0-9_]+)/(\d+)` (utils.py:26).
The two host alternatives share no common prefix-instance, and both capture
classes exclude `/`, so maximal munch is faithful. -/
def matchPublic (cs : List Char) : Option (String × Nat) :=
  let afterScheme := dropScheme cs
  let afterHost :=
    match dropLead "t.me/".data afterScheme with
    | some rest => some rest
    | none => dropLead "telegram.me/".data afterScheme
  match afterHost with
  | none => none
  | some r1 =>
    let s1 := r1.span isWordChar
    if s1.1.isEmpty then none
    else
      match s1.2 with
      | '/' :: r2 =>
        let s2 := r2.span Char.isDigit
        if s2.1.isEmpty then none
        else some (String.mk s1.1, natOfDigits s2.1)
      | _ => none

/-- The short-format regex `@([a-zA-Z0-9_]+)/(\d+)` (utils.py:33). -/
def matchShort (cs : List Char) : Option (String × Nat) :=
  match cs with
  | '@' :: r1 =>
    let s1 := r1.span isWordChar
    if s1.1.isEmpty then none
    else
      match s1.2 with
      | '/' :: r2 =>
        let s2 := r2.span Char.isDigit
        if s2.1.isEmpty then none
        else some (String.mk s1.1, natOfDigits s2.1)
      | _ => none
  | _ => none

/-- `LinkParser.parse_telegram_link` (utils.py:5-39).  Returns
`(chat, message_id, link_type)`.  The private shape is tried first (the
public regex would otherwise capture the `c` path segment as a username);
the private chat id is the string `"-100" ++ str(channel_id)`. -/
def parse_telegram_link (link : String) : Option (String × Nat × String) :=
  if link = "" then none
  else
    let cs := pyStrip link.data
    match matchPrivate cs with
    | some (channel_id, message_id) =>
      some ("-100" ++ toString channel_id, message_id, "private")
    | none =>
      match matchPublic cs with
      | some (username, message_id) => some (username, message_id, "public")
      | none =>
        match matchShort cs with
        | some (username, message_id) => some (username, message_id, "public")
        | none => none

/-- The numeric reading of a parsed chat id used by
`UserSession.resolve_peer` (user_session.py:184):
`int(chat_id) if chat_id.lstrip('-').isdigit() else None`.  Inputs on which
Python `int()` would raise (e.g. several leading `-`) resolve to `none`,
matching the enclosing exception handler. -/
def chat_id_int (s : String) : Option Int :=
  match s.data with
  | '-' :: rest =>
    if rest ≠ [] ∧ rest.all Char.isDigit then some (-(natOfDigits rest : Int))
    else none
  | cs =>
    if cs ≠ [] ∧ cs.all Char.isDigit then some (natOfDigits cs : Int)
    else none

/-- Outcome of one `TelegramDownloaderBot.handle_links` invocation. -/
inductive LinkOutcome
  | accessDenied
  | rejectedBusy
  | finished (ok : Bool)
deriving DecidableEq, Repr

/-- The single-flight skeleton of `TelegramDownloaderBot.handle_links`
(bot.py:453-537): after the access gate, a user already in
`self.processing_users` is told to wait and the handler returns with the
set unchanged; otherwise the user is added, the body runs (`ok` abstracts
its outcome — link parsing, session, transfer; every exception is caught),
and the `finally` block discards the user from the set unconditionally. -/
def handle_links (processing : Finset Int) (user_id : Int) (accessOk : Bool)
    (bodyOk : Bool) : LinkOutcome × Finset Int :=
  if ¬accessOk then (.accessDenied, processing)
  else if user_id ∈ processing then (.rejectedBusy, processing)
  else (.finished bodyOk, (insert user_id processing).erase user_id)

/-- The per-user in-flight login state kept in
`TelegramDownloaderBot.user_states`. -/
structure UserState where
  awaiting_code : Bool
  awaiting_2fa : Bool
  phone_number : String
  phone_code_hash : String
deriving DecidableEq, Repr

/-- Result of `AuthManager.verify_user_code` as seen by the handler. -/
inductive VerifyResult
  | ok
  | twoFARequired
  | err (msg : String)
deriving DecidableEq, Repr

/-- Outcome of `TelegramDownloaderBot.handle_verification_code`. -/
inductive CodeOutcome
  | ignored
  | rejectedFormat
  | loginSuccess
  | need2fa
  | failed (msg : String)
deriving DecidableEq, Repr

/-- The code extraction of `handle_verification_code` (bot.py:353-355):
strip the text, then keep only the digit characters. -/
def extract_code (text : String) : String :=
  String.mk ((pyStrip text.data).filter Char.isDigit)

/-- `TelegramDownloaderBot.handle_verification_code` (bot.py:345-388).
`state` is the user's entry in `user_states` (absent if none), `vr` the
result `AuthManager.verify_user_code` would return.  Returns
(outcome, new user state, whether `verify_user_code` — the step holding
the remote `sign_in` — was invoked).  With fewer or more than 5 digits the
handler replies with a validation message and returns before the verify
call, leaving the state untouched. -/
def handle_verification_code (state : Option UserState) (text : String)
    (vr : VerifyResult) : CodeOutcome × Option UserState × Bool :=
  match state with
  | none => (.ignored, none, false)
  | some st =>
    if ¬st.awaiting_code then (.ignored, some st, false)
    else
      let code := extract_code text
      if code.length ≠ 5 then (.rejectedFormat, some st, false)
      else
        match vr with
        | .ok => (.loginSuccess, none, true)
        | .twoFARequired => (.need2fa, some { st with awaiting_2fa := true }, true)
        | .err m => (.failed m, none, true)

/-- What the `self.db.get_user(user_id)` call inside
`AuthManager.is_user_authenticated` does: returns a row, returns `None`, or
raises. -/
inductive DBLookup
  | found
  | notFound
  | dbError
deriving DecidableEq, Repr

/-- `AuthManager.is_user_authenticated` (auth_manager.py:205-237): false if
the session file is missing or smaller than 100 bytes; then the database is
consulted — a lookup that returns no row yields false, while a lookup that
raises is tolerated and the valid session file wins. -/
def is_user_authenticated (fileExists : Bool) (fileSize : Nat) (db : DBLookup) : Bool :=
  if ¬fileExists then false
  else if fileSize < 100 then false
  else
    match db with
    | .found => true
    | .notFound => false
    | .dbError => true

/-- A free-tier user with no downloads yet, for concrete instantiations. -/
def freeUserW : UserData :=
  { user_id := 1, is_admin := false, is_premium := false, is_pro := false,
    download_count := 0, daily_reset := 0, subscription_expiry := none,
    last_used := 0 }

/-- A free-tier user sitting exactly at the daily limit. -/
def freeUserAtLimit : UserData :=
  { user_id := 2, is_admin := false, is_premium := false, is_pro := false,
    download_count := 5, daily_reset := 0, subscription_expiry := none,
    last_used := 0 }

/-- An admin-flagged user at a huge download count. -/
def adminUserW : UserData :=
  { user_id := 3, is_admin := true, is_premium := false, is_pro := false,
    download_count := 1000000, daily_reset := 0, subscription_expiry := none,
    last_used := 0 }

/-- The admin condition of `premium_manager.py` is false for a non-admin,
non-allow-listed user. -/
lemma adminCond_false (ids : List Int) (u : UserData)
    (h : ¬(u.is_admin = true ∨ u.user_id ∈ ids)) :
    ¬((u.is_admin || (defaultConfig ids).adminIds.contains u.user_id) = true) := by
  intro hc
  apply h
  simpa [defaultConfig] using hc

/-- The admin condition of `premium_manager.py` is true for an admin or
allow-listed user. -/
lemma adminCond_true (ids : List Int) (u : UserData)
    (h : u.is_admin = true ∨ u.user_id ∈ ids) :
    (u.is_admin || (defaultConfig ids).adminIds.contains u.user_id) = true := by
  simpa [defaultConfig] using h

/-- `can_download` for a non-admin reduces to the daily-limit test. -/
lemma can_download_nonadmin_eq (ids : List Int) (u : UserData)
    (h : ¬(u.is_admin = true ∨ u.user_id ∈ ids)) :
    can_download (defaultConfig ids) (some u) =
      if u.download_count ≥ get_download_limit (defaultConfig ids) u then
        (false, "Daily limit reached (" ++ toString u.download_count ++ "/" ++
          toString (get_download_limit (defaultConfig ids) u) ++ ")")
      else (true, "OK") := by
  simp only [can_download]
  rw [if_neg (adminCond_false ids u h)]

/-- A user whose tier is not admin does not satisfy the admin condition. -/
lemma nonadmin_of_tier (ids : List Int) (u : UserData)
    (htier : get_user_tier (defaultConfig ids) u ≠ .admin) :
    ¬(u.is_admin = true ∨ u.user_id ∈ ids) := by
  intro hor
  apply htier
  simp only [get_user_tier]
  rw [if_pos (adminCond_true ids u hor)]

/-- For a non-admin, the download limit is 5/50/200 by tier under the
default configuration. -/
lemma limit_by_tier (ids : List Int) (u : UserData)
    (h : ¬(u.is_admin = true ∨ u.user_id ∈ ids)) :
    get_download_limit (defaultConfig ids) u =
      match get_user_tier (defaultConfig ids) u with
      | .free => 5
      | .premium => 50
      | .pro => 200
      | .admin => 5 := by
  simp only [get_download_limit]
  rw [if_neg (adminCond_false ids u h)]
  cases get_user_tier (defaultConfig ids) u <;> rfl

/-- A free-tier user gets the 20 s default cooldown. -/
lemma cooldown_of_tier_free (ids : List Int) (u : UserData)
    (htier : get_user_tier (defaultConfig ids) u = .free) :
    get_cooldown_time (defaultConfig ids) u = 20 := by
  simp only [get_cooldown_time]
  rw [if_neg (adminCond_false ids u (nonadmin_of_tier ids u (by simp [htier]))),
    if_neg (by simp [htier])]
  rfl

/-- A free-tier user strictly below the limit passes `can_download`. -/
lemma can_download_free_ok (ids : List Int) (u : UserData)
    (htier : get_user_tier (defaultConfig ids) u = .free)
    (hq : u.download_count < 5) :
    can_download (defaultConfig ids) (some u) = (true, "OK") := by
  have h := nonadmin_of_tier ids u (by simp [htier])
  have hlim : get_download_limit (defaultConfig ids) u = 5 := by
    rw [limit_by_tier ids u h, htier]
  rw [can_download_nonadmin_eq ids u h, hlim, if_neg (by omega)]

/-- C4: the quota admission decision of `PremiumManager.can_download`:
admins (flag or allow-list) are always admitted; otherwise admission holds
iff `download_count < limit(tier)` with default limits free=5, premium=50,
pro=200, and a user exactly at the limit is denied with the daily-limit
reason string. -/
theorem C4_quota_admission (ids : List Int) (u : UserData) :
    ((u.is_admin = true ∨ u.user_id ∈ ids) →
      (can_download (defaultConfig ids) (some u)).1 = true) ∧
    (¬(u.is_admin = true ∨ u.user_id ∈ ids) →
      ((can_download (defaultConfig ids) (some u)).1 = true ↔
        u.download_count < get_download_limit (defaultConfig ids) u) ∧
      (get_user_tier (defaultConfig ids) u = .free →
        get_download_limit (defaultConfig ids) u = 5) ∧
      (get_user_tier (defaultConfig ids) u = .premium →
        get_download_limit (defaultConfig ids) u = 50) ∧
      (get_user_tier (defaultConfig ids) u = .pro →
        get_download_limit (defaultConfig ids) u = 200) ∧
      (u.download_count = get_download_limit (defaultConfig ids) u →
        can_download (defaultConfig ids) (some u) =
          (false, "Daily limit reached (" ++ toString u.download_count ++ "/" ++
            toString (get_download_limit (defaultConfig ids) u) ++ ")"))) := by
  constructor
  · intro h
    simp only [can_download]
    rw [if_pos (adminCond_true ids u h)]
  · intro h
    refine ⟨?_, ?_, ?_, ?_, ?_⟩
    · rw [can_download_nonadmin_eq ids u h]
      split
      · rename_i hge
        simp only [ge_iff_le] at hge
        constructor
        · intro hfalse
          simp at hfalse
        · intro hlt
          exact absurd hlt (by omega)
      · rename_i hge
        simp only [ge_iff_le, not_le] at hge
        exact iff_of_true rfl hge
    · intro htier
      rw [limit_by_tier ids u h, htier]
    · intro htier
      rw [limit_by_tier ids u h, htier]
    · intro htier
      rw [limit_by_tier ids u h, htier]
    · intro heq
      rw [can_download_nonadmin_eq ids u h, if_pos (by omega)]

/-- Closed instance of the C4 theorem: the admin user with a million
downloads is admitted, and the free user exactly at the default limit of 5
is denied. -/
theorem C4_quota_admission_witness :
    (can_download (defaultConfig []) (some adminUserW)).1 = true ∧
    can_download (defaultConfig []) (some freeUserAtLimit) =
      (false, "Daily limit reached (5/5)") := by
  constructor
  · exact (C4_quota_admission [] adminUserW).1 (Or.inl rfl)
  · have h := ((C4_quota_admission [] freeUserAtLimit).2 (by decide)).2.2.2.2 (by decide)
    rw [h]
    decide

/-- C5: `PremiumManager.get_cooldown_time` is 20 s for a free-tier user and
0 for any other tier (premium, pro, admin) under the default configuration;
in `_check_access`, a free-tier user within their quota who attempts a
second transfer strictly less than 20 s after the recorded one is denied
with the cooldown message, and exactly at 20 s is admitted. -/
theorem C5_cooldown_gate (ids : List Int) (u : UserData) (t now : ℚ) :
    (get_user_tier (defaultConfig ids) u = .free →
      get_cooldown_time (defaultConfig ids) u = 20) ∧
    (get_user_tier (defaultConfig ids) u ≠ .free →
      get_cooldown_time (defaultConfig ids) u = 0) ∧
    (get_user_tier (defaultConfig ids) u = .free → u.download_count < 5 →
      now - t < 20 →
      (check_access (defaultConfig ids) true (some u) (some t) now).isCooldown = true) ∧
    (get_user_tier (defaultConfig ids) u = .free → u.download_count < 5 →
      now - t = 20 →
      check_access (defaultConfig ids) true (some u) (some t) now = .allowed) := by
  refine ⟨?_, ?_, ?_, ?_⟩
  · intro htier
    exact cooldown_of_tier_free ids u htier
  · intro htier
    by_cases hadm : u.is_admin = true ∨ u.user_id ∈ ids
    · simp only [get_cooldown_time]
      rw [if_pos (adminCond_true ids u hadm)]
    · simp only [get_cooldown_time]
      rw [if_neg (adminCond_false ids u hadm), if_pos htier]
  · intro htier hq hlt
    have hnadm := nonadmin_of_tier ids u (by simp [htier])
    simp only [check_access]
    rw [if_neg (by simp)]
    simp only [can_download_free_ok ids u htier hq,
      if_neg (adminCond_false ids u hnadm), cooldown_of_tier_free ids u htier]
    rw [if_pos ⟨by norm_num, by push_cast; linarith⟩]
    rfl
  · intro htier hq heq
    have hnadm := nonadmin_of_tier ids u (by simp [htier])
    simp only [check_access]
    rw [if_neg (by simp)]
    simp only [can_download_free_ok ids u htier hq,
      if_neg (adminCond_false ids u hnadm), cooldown_of_tier_free ids u htier]
    rw [if_neg (by push_cast; rw [heq]; norm_num)]

/-- Closed instance of the C5 theorem: the fresh free user is denied 5 s
after the recorded download and admitted exactly 20 s after it. -/
theorem C5_cooldown_gate_witness :
    (check_access (defaultConfig []) true (some freeUserW) (some 0) 5).isCooldown = true ∧
    check_access (defaultConfig []) true (some freeUserW) (some 0) 20 = .allowed := by
  constructor
  · exact (C5_cooldown_gate [] freeUserW 0 5).2.2.1 (by decide) (by decide) (by norm_num)
  · exact (C5_cooldown_gate [] freeUserW 0 20).2.2.2 (by decide) (by decide) (by norm_num)

/-- C9 counterexample: a user whose session file exists with 200 bytes — a
valid, non-trivially-sized handle — but whose database lookup reports no
row gets `false` from `is_user_authenticated`, so the claimed equivalence
"true iff the handle exists and is non-trivially sized" fails at this
input. -/
theorem C9_counterexample :
    ¬(is_user_authenticated true 200 .notFound = true ↔ (true = true ∧ 100 ≤ 200)) := by
  decide

/-- C9 amended: `is_user_authenticated` is true iff the session file exists,
is at least 100 bytes, and the database lookup did not (successfully)
report the user absent; a lookup that raises is tolerated and does not
override the valid handle. -/
theorem C9_auth_check (fileExists : Bool) (fileSize : Nat) (db : DBLookup) :
    is_user_authenticated fileExists fileSize db = true ↔
      (fileExists = true ∧ 100 ≤ fileSize ∧ db ≠ .notFound) := by
  cases db <;> cases fileExists <;> simp [is_user_authenticated]

/-- C10: a code submission whose digit content (after stripping all
non-digit characters) is not exactly 5 digits long is rejected with the
validation message before `AuthManager.verify_user_code` — and hence the
remote sign-in — is reached, and the in-flight login state is left
unchanged. -/
theorem C10_code_validation (st : UserState) (text : String) (vr : VerifyResult)
    (hA : st.awaiting_code = true) (hL : (extract_code text).length ≠ 5) :
    handle_verification_code (some st) text vr = (.rejectedFormat, some st, false) := by
  simp [handle_verification_code, hA, hL]

/-- `get_user` always hands the caller the row exactly as fetched, before
any lazy update was written back (database.py:138 vs 174-175). -/
lemma get_user_returns_fetched (now : ℚ) (w : UserData) :
    (get_user now (some w)).1 = some w := rfl

/-- A premium user whose 30-day subscription expired at time 10. -/
def premUserC1 : UserData :=
  { user_id := 7, is_admin := false, is_premium := true, is_pro := false,
    download_count := 0, daily_reset := 0, subscription_expiry := some 10,
    last_used := 0 }

/-- C1 counterexample: at time 11 the subscription expiry 10 lies in the
past, yet the record returned by that very `get_user` call is the stale
pre-update row — premium flag still set, expiry still non-null, tier still
premium — because the source returns `dict(user)` built from the row
fetched before the downgrade UPDATE. -/
theorem C1_counterexample :
    premUserC1.subscription_expiry = some 10 ∧ (10 : ℚ) < 11 ∧
    (get_user 11 (some premUserC1)).1 = some premUserC1 ∧
    premUserC1.is_premium = true ∧
    get_user_tier (defaultConfig []) premUserC1 = .premium := by
  refine ⟨rfl, by norm_num, rfl, rfl, rfl⟩

/-- C1 amended: a read at a time past the stored `subscription_expiry`
persists the downgrade — the stored row has both premium/pro flags cleared
and the expiry nulled — and the *next* read returns that downgraded record,
which reports tier free for a non-admin; the read that observes the expiry
itself still returns the stale pre-downgrade row. -/
theorem C1_subscription_expiry (ids : List Int) (now now2 : ℚ) (u : UserData) (e : ℚ)
    (hexp : u.subscription_expiry = some e) (hpast : e < now) :
    ∃ u1, (get_user now (some u)).2 = some u1 ∧
      u1.is_premium = false ∧ u1.is_pro = false ∧ u1.subscription_expiry = none ∧
      u1.user_id = u.user_id ∧ u1.is_admin = u.is_admin ∧
      (get_user now2 (some u1)).1 = some u1 ∧
      (¬(u.is_admin = true ∨ u.user_id ∈ ids) →
        get_user_tier (defaultConfig ids) u1 = .free) := by
  by_cases hd : now - u.daily_reset > 86400
  · simp only [get_user, if_pos hd, hexp, gt_iff_lt]
    rw [if_pos hpast]
    refine ⟨_, rfl, by first | rfl | trivial, by first | rfl | trivial,
      by first | rfl | trivial, by first | rfl | trivial, by first | rfl | trivial,
      by first | rfl | trivial, ?_⟩
    intro h
    simp only [get_user_tier]
    rw [if_neg (adminCond_false ids _ (by simpa using h))]
    rfl
  · simp only [get_user, if_neg hd, hexp, gt_iff_lt]
    rw [if_pos hpast]
    refine ⟨_, rfl, by first | rfl | trivial, by first | rfl | trivial,
      by first | rfl | trivial, by first | rfl | trivial, by first | rfl | trivial,
      by first | rfl | trivial, ?_⟩
    intro h
    simp only [get_user_tier]
    rw [if_neg (adminCond_false ids _ (by simpa using h))]
    rfl

/-- Closed instance of the C1 amended theorem at `premUserC1`, read at times
11 and 12. -/
theorem C1_subscription_expiry_witness :
    ∃ u1, (get_user 11 (some premUserC1)).2 = some u1 ∧
      u1.is_premium = false ∧ u1.is_pro = false ∧ u1.subscription_expiry = none ∧
      u1.user_id = premUserC1.user_id ∧ u1.is_admin = premUserC1.is_admin ∧
      (get_user 12 (some u1)).1 = some u1 ∧
      (¬(premUserC1.is_admin = true ∨ premUserC1.user_id ∈ ([] : List Int)) →
        get_user_tier (defaultConfig []) u1 = .free) :=
  C1_subscription_expiry [] 11 12 premUserC1 10 rfl (by norm_num)

/-- C2 counterexample: a transfer whose download succeeded (the temporary
file `"file.bin"` was created) but whose relay failed produces a trace with
no cleanup event — the temporary file is left on disk, contradicting the
claim that every outcome removes it. -/
theorem C2_counterexample :
    Ev.download "file.bin" ∈ process_download true none 100 (some "file.bin") false ∧
    Ev.cleanup "file.bin" ∉ process_download true none 100 (some "file.bin") false := by
  decide

/-- C2 amended: once the temporary file is created, the pipeline removes it
if and only if the relay (upload through the bot) succeeds; on a failed
relay `_process_download_with_progress` returns without invoking
`FileManager.cleanup_file`, leaving the file on disk. -/
theorem C2_cleanup_iff_relay_ok (hasMedia : Bool) (fileSize : Option Nat) (maxSize : Nat)
    (uploadOk : Bool) (p : String)
    (hm : hasMedia = true)
    (hsz : (match fileSize with | some s => decide (s > maxSize) | none => false) = false) :
    (Ev.cleanup p ∈ process_download hasMedia fileSize maxSize (some p) uploadOk ↔
      uploadOk = true) := by
  subst hm
  simp only [process_download, download_file]
  rw [if_neg (by simp), if_neg (by simp [hsz])]
  cases uploadOk <;> simp

/-- Closed instance of the C2 amended theorem: on a successful relay the
cleanup event is in the trace. -/
theorem C2_cleanup_iff_relay_ok_witness :
    Ev.cleanup "file.bin" ∈ process_download true none 100 (some "file.bin") true :=
  (C2_cleanup_iff_relay_ok true none 100 true "file.bin" rfl rfl).mpr rfl

/-- C3 counterexample: a transfer that fails at the relay step has already
incremented the download counter and appended the statistics record (they
are written inside `UserSession.download_file`, before the relay), while
the cooldown timestamp is indeed not updated. -/
theorem C3_counterexample :
    Ev.incCount ∈ process_download true none 100 (some "v.mp4") false ∧
    Ev.addStat ∈ process_download true none 100 (some "v.mp4") false ∧
    Ev.setLastDownloadTime ∉ process_download true none 100 (some "v.mp4") false := by
  decide

/-- C3 amended: within one transfer the download strictly precedes the
relay, but the counter increment and the statistics append happen
immediately after the successful download and *before* the relay — hence
they also happen on transfers whose relay fails — while the cooldown
timestamp is recorded iff the relay succeeds; a transfer whose download
fails updates nothing. -/
theorem C3_ordering (hasMedia : Bool) (fileSize : Option Nat) (maxSize : Nat)
    (uploadOk : Bool) (p : String)
    (hm : hasMedia = true)
    (hsz : (match fileSize with | some s => decide (s > maxSize) | none => false) = false) :
    process_download hasMedia fileSize maxSize (some p) uploadOk =
      [Ev.download p, Ev.incCount, Ev.addStat, Ev.uploadAttempt p] ++
        (if uploadOk then [Ev.cleanup p, Ev.setLastDownloadTime] else []) ∧
    (Ev.setLastDownloadTime ∈ process_download hasMedia fileSize maxSize (some p) uploadOk ↔
      uploadOk = true) ∧
    process_download hasMedia fileSize maxSize none uploadOk = [] := by
  subst hm
  refine ⟨?_, ?_, ?_⟩
  · simp only [process_download, download_file]
    rw [if_neg (by simp), if_neg (by simp [hsz])]
    cases uploadOk <;> simp
  · simp only [process_download, download_file]
    rw [if_neg (by simp), if_neg (by simp [hsz])]
    cases uploadOk <;> simp
  · simp only [process_download, download_file]
    rw [if_neg (by simp), if_neg (by simp [hsz])]

/-- Closed instance of the C3 amended theorem: the full success trace in
order. -/
theorem C3_ordering_witness :
    process_download true none 100 (some "v2.mp4") true =
      [Ev.download "v2.mp4", Ev.incCount, Ev.addStat, Ev.uploadAttempt "v2.mp4",
        Ev.cleanup "v2.mp4", Ev.setLastDownloadTime] := by
  have h := (C3_ordering true none 100 true "v2.mp4" rfl rfl).1
  simpa using h

/-- Closed instance of the C10 theorem at the 4-digit input `"123 4"`. -/
theorem C10_code_validation_witness :
    handle_verification_code
        (some { awaiting_code := true, awaiting_2fa := false,
                phone_number := "+15550100", phone_code_hash := "h" })
        "123 4" .ok =
      (.rejectedFormat,
        some { awaiting_code := true, awaiting_2fa := false,
               phone_number := "+15550100", phone_code_hash := "h" }, false) :=
  C10_code_validation _ "123 4" .ok (by decide) (by decide)

/-- C6: single-flight per user in `handle_links`: a request for a user with
a transfer already in progress is rejected immediately with the busy reply
and the processing set unchanged; otherwise the body runs, the marker is
removed unconditionally whatever the body's outcome, other users'
membership is untouched, and a subsequent request by the same user is not
rejected as busy. -/
theorem C6_single_flight (processing : Finset Int) (u v : Int) (bodyOk : Bool) :
    (u ∈ processing →
      handle_links processing u true bodyOk = (.rejectedBusy, processing)) ∧
    (u ∉ processing →
      (handle_links processing u true bodyOk).1 = .finished bodyOk ∧
      u ∉ (handle_links processing u true bodyOk).2 ∧
      (v ≠ u → ((v ∈ (handle_links processing u true bodyOk).2) ↔ v ∈ processing)) ∧
      (handle_links (handle_links processing u true bodyOk).2 u true bodyOk).1 ≠
        .rejectedBusy) := by
  constructor
  · intro hin
    simp [handle_links, hin]
  · intro hout
    have hstate : (handle_links processing u true bodyOk).2 =
        (insert u processing).erase u := by
      simp [handle_links, hout]
    refine ⟨?_, ?_, ?_, ?_⟩
    · simp [handle_links, hout]
    · rw [hstate]
      exact Finset.not_mem_erase u _
    · intro hvu
      rw [hstate]
      simp [Finset.mem_erase, Finset.mem_insert, hvu]
    · rw [hstate]
      simp [handle_links, Finset.not_mem_erase]

/-- Closed instance of the C6 theorem: with user 5 in flight a second
request by user 5 is rejected busy with the set unchanged, and on an empty
set user 7's failing transfer still runs. -/
theorem C6_single_flight_witness :
    handle_links ({5} : Finset Int) 5 true true = (.rejectedBusy, {5}) ∧
    (handle_links (∅ : Finset Int) 7 true false).1 = .finished false :=
  ⟨(C6_single_flight {5} 5 0 true).1 (Finset.mem_singleton.mpr rfl),
   ((C6_single_flight ∅ 7 0 false).2 (Finset.not_mem_empty 7)).1⟩

/-- C7: `parse_telegram_link` recovers the intended pair for the three
supported shapes: `t.me/name/123` and `@name/123` both parse to the public
pair (name, 123), and `t.me/c/4455/2` parses to the private chat-id string
`"-1004455"` with message id 2, whose numeric reading used by
`resolve_peer` is the integer -1004455. -/
theorem C7_link_parsing :
    parse_telegram_link "t.me/name/123" = some ("name", 123, "public") ∧
    parse_telegram_link "@name/123" = some ("name", 123, "public") ∧
    parse_telegram_link "t.me/c/4455/2" = some ("-1004455", 2, "private") ∧
    chat_id_int "-1004455" = some (-1004455) := by
  refine ⟨rfl, rfl, rfl, rfl⟩

/-- Unfolding of the batch loop of `process_batch_download` by one
iteration. -/
lemma process_batch_download_succ (s n : Nat) (ok : Nat → Bool) :
    process_batch_download s (n + 1) ok =
      (if ok (s + n + 1) then
        ((process_batch_download s n ok).1 ++
            [.attempt (s + n + 1), .success (s + n + 1)],
          (process_batch_download s n ok).2 + 1)
      else
        ((process_batch_download s n ok).1 ++ [.attempt (s + n + 1)],
          (process_batch_download s n ok).2)) := by
  simp only [process_batch_download, List.range_succ, List.foldl_append,
    List.foldl_cons, List.foldl_nil]

/-- Unfolding of the loop of `batch_copy_messages` by one iteration. -/
lemma batch_copy_messages_succ (s n : Nat) (raised : Nat → Bool) :
    batch_copy_messages s (n + 1) raised =
      (if raised (s + n) then
        ((batch_copy_messages s n raised).1 ++ [.attempt (s + n)],
          (batch_copy_messages s n raised).2)
      else
        ((batch_copy_messages s n raised).1 ++
            [.attempt (s + n), .success (s + n), .sleep (1/2)],
          (batch_copy_messages s n raised).2 + 1)) := by
  simp only [batch_copy_messages, List.range_succ, List.foldl_append,
    List.foldl_cons, List.foldl_nil]

/-- `attemptedIds` distributes over trace concatenation. -/
lemma attemptedIds_append (a b : List BEv) :
    attemptedIds (a ++ b) = attemptedIds a ++ attemptedIds b := by
  simp [attemptedIds]

/-- `sleepCount` adds over trace concatenation. -/
lemma sleepCount_append (a b : List BEv) :
    sleepCount (a ++ b) = sleepCount a + sleepCount b := by
  simp [sleepCount, List.filter_append]

lemma attemptedIds_single (x : Nat) : attemptedIds [.attempt x] = [x] := rfl

lemma attemptedIds_pair (x : Nat) : attemptedIds [.attempt x, .success x] = [x] := rfl

lemma attemptedIds_triple (x : Nat) (q : ℚ) :
    attemptedIds [.attempt x, .success x, .sleep q] = [x] := rfl

lemma sleepCount_single (x : Nat) : sleepCount [.attempt x] = 0 := rfl

lemma sleepCount_pair (x : Nat) : sleepCount [.attempt x, .success x] = 0 := rfl

/-- C8 counterexample: two batch iterations after anchor 10 in
`process_batch_download` produce exactly attempt/success events for ids 11
and 12 — the full trace contains no sleep at all, so no "fixed small delay
between consecutive iterations" is waited on the wired batch path. -/
theorem C8_counterexample :
    (process_batch_download 10 2 (fun _ => true)).1 =
      [BEv.attempt 11, BEv.success 11, BEv.attempt 12, BEv.success 12] ∧
    sleepCount (process_batch_download 10 2 (fun _ => true)).1 = 0 := by
  decide

/-- C8 amended: the bot's batch loop targets exactly the contiguous ids
anchor+1 … anchor+N, attempts every id regardless of earlier failures,
reports the number of successes, and issues its iterations back-to-back
with no delay; the 0.5 s sleep exists only in the (uncalled)
`UserSession.batch_copy_messages` helper, whose range starts at the anchor
itself. -/
theorem C8_batch_range (s count : Nat) (ok : Nat → Bool) (raised : Nat → Bool) :
    attemptedIds (process_batch_download s count ok).1 =
      (List.range count).map (fun i => s + i + 1) ∧
    (process_batch_download s count ok).2 =
      ((List.range count).filter (fun i => ok (s + i + 1))).length ∧
    sleepCount (process_batch_download s count ok).1 = 0 ∧
    attemptedIds (batch_copy_messages s count raised).1 =
      (List.range count).map (fun i => s + i) := by
  induction count with
  | zero =>
    refine ⟨rfl, rfl, rfl, rfl⟩
  | succ n ih =>
    obtain ⟨ih1, ih2, ih3, ih4⟩ := ih
    refine ⟨?_, ?_, ?_, ?_⟩
    · rw [process_batch_download_succ]
      cases hok : ok (s + n + 1)
      · rw [if_neg (by simp)]
        rw [attemptedIds_append, attemptedIds_single, ih1, List.range_succ,
          List.map_append]
        simp
      · rw [if_pos rfl]
        rw [attemptedIds_append, attemptedIds_pair, ih1, List.range_succ,
          List.map_append]
        simp
    · rw [process_batch_download_succ]
      cases hok : ok (s + n + 1)
      · rw [if_neg (by simp)]
        simp [ih2, List.range_succ, List.filter_append, hok]
      · rw [if_pos rfl]
        simp [ih2, List.range_succ, List.filter_append, hok]
    · rw [process_batch_download_succ]
      cases hok : ok (s + n + 1)
      · rw [if_neg (by simp)]
        rw [sleepCount_append, sleepCount_single, ih3]
      · rw [if_pos rfl]
        rw [sleepCount_append, sleepCount_pair, ih3]
    · rw [batch_copy_messages_succ]
      cases hr : raised (s + n)
      · rw [if_neg (by simp)]
        rw [attemptedIds_append, attemptedIds_triple, ih4, List.range_succ,
          List.map_append]
        simp
      · rw [if_pos rfl]
        rw [attemptedIds_append, attemptedIds_single, ih4, List.range_succ,
          List.map_append]
        simp

end RestrictedBot
